import Mathlib

/-!
Verification of the claim-extraction-and-verification engine of the
Financial-Narrative repository (`consistency_checker.py`), via a shallow
embedding in Lean 4.

Modelling conventions:
* Sentences and claim texts are `List Char`; `sent_tokenize` is an external
  NLTK collaborator, so `extract_factual_claims` takes the sentence list.
* Python floats are modelled as exact rationals (`ℚ`); dates are the ISO
  strings produced by `strftime('%Y-%m-%d')`, compared lexicographically,
  which agrees with the underlying datetime order for this fixed format.
* The dataframe is a record of optional columns; a missing mandatory column
  (or an empty frame) makes the reference-statistics computation fail, which
  the per-claim `try/except` of `verify_claim_against_data` converts into an
  error result.  The `MA_20`/`MA_50` columns are read but never used by any
  scoring branch, so they are not modelled.
* The VADER sentiment analyzer is an external stateless collaborator,
  modelled as a function parameter `sia` giving the compound score.
-/

/-! ### Text helpers -/

/-- `str.lower()` on the character list (keywords in the source are ASCII). -/
def lowerStr (s : List Char) : List Char := s.map Char.toLower

/-- Python `\s` whitespace class: space, tab, newline, CR, VT, FF. -/
def isSpaceChar (c : Char) : Bool :=
  c = ' ' || c = '\t' || c = '\n' || c = '\r' || c = Char.ofNat 11 || c = Char.ofNat 12

/-- Python string `<=` (lexicographic by code point), used for the ISO-date
comparisons `date >= start_date and date <= end_date`. -/
def strLe : List Char → List Char → Bool
  | [], _ => true
  | _ :: _, [] => false
  | a :: as, b :: bs => if a < b then true else if b < a then false else strLe as bs

/-- Minimum of two ISO date strings (models `Series.min` on the Date column). -/
def strMin (a b : List Char) : List Char := if strLe a b then a else b

/-- Maximum of two ISO date strings (models `Series.max` on the Date column). -/
def strMax (a b : List Char) : List Char := if strLe a b then b else a

/-! ### Regex matchers

Each matcher decides whether the corresponding compiled pattern matches at the
head of the text, returning the captured group together with the text after
the match.  For these patterns greedy matching without global backtracking is
complete, so the matchers are deterministic functions. -/

/-- Match `\d+(?:\.\d+)?` at the head: the shared numeric core of the price
and percentage patterns.  Returns the captured token and the rest. -/
def takeNum (s : List Char) : Option (List Char × List Char) :=
  let ds := s.takeWhile Char.isDigit
  if ds = [] then none
  else
    let r := s.dropWhile Char.isDigit
    match r with
    | '.' :: t =>
      let fs := t.takeWhile Char.isDigit
      if fs = [] then some (ds, r)
      else some (ds ++ '.' :: fs, t.dropWhile Char.isDigit)
    | _ => some (ds, r)

/-- Match `\$?(\d+(?:\.\d+)?)` at the head (the price pattern; group 1 drops
the dollar sign, as in `re.findall(r'\$?(\d+(?:\.\d+)?)', ...)`). -/
def matchNumber : List Char → Option (List Char × List Char)
  | [] => none
  | c :: s => if c = '$' then takeNum s else takeNum (c :: s)

/-- Match `(\d+(?:\.\d+)?)\s*\%` at the head (the percentage pattern). -/
def matchPct (s : List Char) : Option (List Char × List Char) :=
  match takeNum s with
  | none => none
  | some (g, r) =>
    match r.dropWhile isSpaceChar with
    | '%' :: rest => some (g, rest)
    | _ => none

/-- Match `\d{4}-\d{2}-\d{2}` at the head (the ISO date pattern). -/
def matchDate : List Char → Option (List Char × List Char)
  | a :: b :: c :: d :: '-' :: e :: f :: '-' :: g :: h :: rest =>
    if [a, b, c, d, e, f, g, h].all Char.isDigit then
      some ([a, b, c, d, '-', e, f, '-', g, h], rest)
    else none
  | _ => none

/-- `pattern.search(text)` as a Boolean: some position starts a match. -/
def reSearch (m : List Char → Option (List Char × List Char)) : List Char → Bool
  | [] => (m []).isSome
  | c :: rest => (m (c :: rest)).isSome || reSearch m rest

/-- `re.findall`: left-to-right non-overlapping matches, fuelled by the text
length (every match of the patterns above consumes at least one character). -/
def reFindAllAux (m : List Char → Option (List Char × List Char)) :
    Nat → List Char → List (List Char)
  | 0, _ => []
  | _ + 1, [] => []
  | fuel + 1, c :: rest =>
    match m (c :: rest) with
    | some (g, r) => g :: reFindAllAux m fuel r
    | none => reFindAllAux m fuel rest

/-- `re.findall(pattern, text)` returning the captured groups. -/
def reFindAll (m : List Char → Option (List Char × List Char)) (s : List Char) :
    List (List Char) :=
  reFindAllAux m (s.length + 1) s

/-- `float(token)` on tokens of shape `digits` or `digits.digits`, as exact
rationals. -/
def digitsVal (s : List Char) : Nat :=
  s.foldl (fun a c => a * 10 + (c.toNat - 48)) 0

/-- Parse a numeric token extracted by the matchers above into a rational. -/
def parseQ (s : List Char) : ℚ :=
  let ip := s.takeWhile Char.isDigit
  let r := s.dropWhile Char.isDigit
  match r with
  | '.' :: fs => (digitsVal ip : ℚ) + (digitsVal fs : ℚ) / ((10 : ℚ) ^ fs.length)
  | _ => (digitsVal ip : ℚ)

/-! ### Keyword lexicons (verbatim from `consistency_checker.py`) -/

def trend_keywords : List (List Char) :=
  ["increased", "decreased", "risen", "fell", "grew", "declined", "improved",
   "deteriorated", "higher", "lower", "upward", "downward", "bullish", "bearish",
   "outperformed", "underperformed"].map String.toList

def volatility_keywords : List (List Char) :=
  ["volatile", "stability", "fluctuation", "variability", "deviation"].map String.toList

def comparison_keywords : List (List Char) :=
  ["compared to", "relative to", "versus", "against", "outperformed",
   "underperformed", "better than", "worse than", "higher than",
   "lower than"].map String.toList

def uptrend_words : List (List Char) :=
  ["increase", "increased", "rise", "risen", "grew", "growth", "upward",
   "higher", "up", "bullish"].map String.toList

def downtrend_words : List (List Char) :=
  ["decrease", "decreased", "fall", "fell", "decline", "declined", "downward",
   "lower", "down", "bearish"].map String.toList

def high_volatility_words : List (List Char) :=
  ["high", "significant", "increased", "substantial"].map String.toList

def low_volatility_words : List (List Char) :=
  ["low", "decreased", "minimal", "limited", "reduced"].map String.toList

/-- `w` occurs at the start of `s`. -/
def leadsWith : List Char → List Char → Bool
  | [], _ => true
  | _ :: _, [] => false
  | a :: w, b :: s => a = b && leadsWith w s

/-- Python substring containment `w in s`. -/
def containsSub (w : List Char) : List Char → Bool
  | [] => w.isEmpty
  | c :: rest => leadsWith w (c :: rest) || containsSub w rest

/-- `any(keyword in text.lower() for keyword in kws)`. -/
def anyKeyword (kws : List (List Char)) (s : List Char) : Bool :=
  kws.any (fun w => containsSub w (lowerStr s))

/-! ### Data model -/

inductive ClaimType
  | price_claim
  | price_trend_claim
  | percentage_claim
  | percentage_trend_claim
  | date_specific_claim
  | trend_claim
  | volatility_claim
  | comparison_claim
deriving DecidableEq

structure Claim where
  claim_text : List Char
  claim_type : ClaimType
deriving DecidableEq

inductive Verdict
  | verified
  | partially_verified
  | contradicted
  | partially_contradicted
  | unverified
  | error
deriving DecidableEq

/-- The per-claim result dict (the `explanation` string is presentational and
not modelled; no claim depends on its content). -/
structure VerificationResult where
  claim_text : List Char
  claim_type : ClaimType
  consistency_score : ℚ
  verification_result : Verdict
deriving DecidableEq

/-- The input dataframe: a record of optional columns.  `none` means the
column is absent; `Volatility_20d` entries may individually be missing
(`NaN`), hence `Option ℚ` per row. -/
structure FinancialData where
  date : Option (List (List Char))
  low : Option (List ℚ)
  high : Option (List ℚ)
  close : Option (List ℚ)
  volume : Option (List ℚ)
  volatility_20d : Option (List (Option ℚ))
deriving DecidableEq

/-- The reference statistics computed at the top of
`verify_claim_against_data` (lines 171-198 of the source). -/
structure RefStats where
  start_date : List Char
  end_date : List Char
  first_close : ℚ
  last_close : ℚ
  price_change : ℚ
  price_change_pct : ℚ
  price_min : ℚ
  price_max : ℚ
  avg_volume : ℚ
  max_volume : ℚ
  volatility : Option ℚ
deriving DecidableEq

/-- Compute the reference statistics; `none` models the statements raising
(missing mandatory column, empty frame, or a present-but-empty volatility
column), which the enclosing `try/except` turns into an error result.
The `first_close = 0` corner (where Python float division yields infinity
rather than raising) is outside the rational model. -/
def computeStats (d : FinancialData) : Option RefStats :=
  match d.date, d.low, d.high, d.close, d.volume with
  | some (d0 :: ds), some (l0 :: ls), some (h0 :: hs), some (c0 :: cs),
    some (v0 :: vs) =>
    match d.volatility_20d with
    | some [] => none
    | vcol =>
      let first_close := c0
      let last_close := cs.getLastD c0
      let price_change := last_close - first_close
      some {
        start_date := ds.foldl strMin d0
        end_date := ds.foldl strMax d0
        first_close := first_close
        last_close := last_close
        price_change := price_change
        price_change_pct := price_change / first_close * 100
        price_min := ls.foldl min l0
        price_max := hs.foldl max h0
        avg_volume := ((v0 :: vs).sum) / ((v0 :: vs).length : ℚ)
        max_volume := vs.foldl max v0
        volatility :=
          match vcol with
          | some l => (l.getLastD none).map (fun v => v * 100)
          | none => none }
  | _, _, _, _, _ => none

/-! ### Claim Extractor (`extract_factual_claims`, lines 65-148) -/

/-- Convenience: text searches used by the classifier. -/
def priceSearch (s : List Char) : Bool := reSearch matchNumber s

def pctSearch (s : List Char) : Bool := reSearch matchPct s

def dateSearch (s : List Char) : Bool := reSearch matchDate s

/-- The per-sentence body of the extraction loop (lines 98-141): skip headers
and disclaimers, then first-match-wins classification. -/
def classifySentence (s : List Char) : Option Claim :=
  if leadsWith "#".toList s || leadsWith "##".toList s || leadsWith "###".toList s then
    none
  else if containsSub "disclaimer".toList (lowerStr s) ||
      containsSub "note:".toList (lowerStr s) then
    none
  else if priceSearch s then
    some ⟨s, if anyKeyword trend_keywords s then .price_trend_claim else .price_claim⟩
  else if pctSearch s then
    some ⟨s, if anyKeyword trend_keywords s then .percentage_trend_claim else .percentage_claim⟩
  else if dateSearch s then
    some ⟨s, .date_specific_claim⟩
  else if anyKeyword trend_keywords s then
    some ⟨s, .trend_claim⟩
  else if anyKeyword volatility_keywords s then
    some ⟨s, .volatility_claim⟩
  else if anyKeyword comparison_keywords s then
    some ⟨s, .comparison_claim⟩
  else
    none

/-- `extract_factual_claims`, over the sentence list produced by the external
`sent_tokenize`; `claims[:15]` caps the result. -/
def extract_factual_claims (sentences : List (List Char)) : List Claim :=
  (sentences.filterMap classifySentence).take 15

/-! ### Claim Verifier (`verify_claim_against_data`, lines 150-341) -/

/-- Tokens of `re.findall(r'\$?(\d+(?:\.\d+)?)', text)`, parsed. -/
def extracted_numbers (t : List Char) : List ℚ :=
  (reFindAll matchNumber t).map parseQ

/-- Tokens of `re.findall(r'(\d+(?:\.\d+)?)\s*\%', text)`, parsed. -/
def extracted_percentages (t : List Char) : List ℚ :=
  (reFindAll matchPct t).map parseQ

/-- Tokens of `re.findall(r'\d{4}-\d{2}-\d{2}', text)`. -/
def extracted_dates (t : List Char) : List (List Char) :=
  reFindAll matchDate t

/-- `price_min * 0.9 <= n <= price_max * 1.1`. -/
def inNarrowPrice (pmin pmax n : ℚ) : Bool :=
  decide (pmin * 0.9 ≤ n ∧ n ≤ pmax * 1.1)

/-- `price_min * 0.7 <= n <= price_max * 1.3`. -/
def inWidePrice (pmin pmax n : ℚ) : Bool :=
  decide (pmin * 0.7 ≤ n ∧ n ≤ pmax * 1.3)

/-- The price-claim loop (lines 212-228).  The first two branches `break`;
the contradicted branch only updates the running result and continues. -/
def priceLoop (pmin pmax : ℚ) : List ℚ → ℚ × Verdict → ℚ × Verdict
  | [], acc => acc
  | n :: ns, acc =>
    if inNarrowPrice pmin pmax n then (0.9, .verified)
    else if inWidePrice pmin pmax n then (0.7, .partially_verified)
    else priceLoop pmin pmax ns (0.2, .contradicted)

/-- The percentage-claim loop (lines 232-248); `apct` is `abs(price_change_pct)`.
Again the contradicted branch does not `break`. -/
def pctLoop (apct : ℚ) : List ℚ → ℚ × Verdict → ℚ × Verdict
  | [], acc => acc
  | p :: ps, acc =>
    if |p - apct| ≤ 2 then (0.95, .verified)
    else if |p - apct| ≤ 5 then (0.7, .partially_verified)
    else pctLoop apct ps (0.3, .contradicted)

/-- `date >= start_date and date <= end_date`. -/
def dateInRange (sd ed dt : List Char) : Bool :=
  strLe sd dt && strLe dt ed

/-- The date-claim loop (lines 253-262); the contradicted branch does not
`break`. -/
def dateLoop (sd ed : List Char) : List (List Char) → ℚ × Verdict → ℚ × Verdict
  | [], acc => acc
  | dt :: ds, acc =>
    if dateInRange sd ed dt then (0.9, .verified)
    else dateLoop sd ed ds (0.1, .contradicted)

/-- `any(word in claim_text.lower() for word in uptrend_words)`. -/
def isUptrendClaim (t : List Char) : Bool := anyKeyword uptrend_words t

def isDowntrendClaim (t : List Char) : Bool := anyKeyword downtrend_words t

def isHighVolClaim (t : List Char) : Bool := anyKeyword high_volatility_words t

def isLowVolClaim (t : List Char) : Bool := anyKeyword low_volatility_words t

/-- The error result produced by the `except` handler (lines 333-341). -/
def errorResult (c : Claim) : VerificationResult :=
  ⟨c.claim_text, c.claim_type, 0.0, .error⟩

/-- `verify_claim_against_data`.  `sia` is the external VADER analyzer's
compound score.  When computing the reference statistics raises (missing
mandatory column or empty frame), the handler returns the error result. -/
def verify_claim_against_data (sia : List Char → ℚ) (claim : Claim)
    (d : FinancialData) : VerificationResult :=
  match computeStats d with
  | none => errorResult claim
  | some st =>
    let t := claim.claim_text
    let dflt : ℚ × Verdict := (0.5, .unverified)
    let sv : ℚ × Verdict :=
      match claim.claim_type with
      | .price_claim | .price_trend_claim =>
        priceLoop st.price_min st.price_max (extracted_numbers t) dflt
      | .percentage_claim | .percentage_trend_claim =>
        pctLoop |st.price_change_pct| (extracted_percentages t) dflt
      | .date_specific_claim =>
        dateLoop st.start_date st.end_date (extracted_dates t) dflt
      | .trend_claim =>
        if (isUptrendClaim t ∧ st.price_change > 0) ∨
            (isDowntrendClaim t ∧ ¬ st.price_change > 0) then
          (0.9, .verified)
        else
          (0.1, .contradicted)
      | .volatility_claim =>
        match st.volatility with
        | some v =>
          if (isHighVolClaim t ∧ v > 2.0) ∨ (isLowVolClaim t ∧ v ≤ 2.0) then
            (0.9, .verified)
          else
            (0.2, .contradicted)
        | none => dflt
      | .comparison_claim =>
        if (sia t > 0.1 ∧ st.price_change_pct > 0) ∨
            (sia t < -0.1 ∧ ¬ st.price_change_pct > 0) then
          (0.7, .partially_verified)
        else
          (0.3, .partially_contradicted)
    ⟨t, claim.claim_type, sv.1, sv.2⟩

/-! ### Report Aggregator (`check_narrative_consistency`, lines 23-63, and
`compute_consistency_score`, lines 397-410) -/

structure ConsistencyReport where
  overall_score : ℚ
  checked_claims : Nat
  claim_checks : List VerificationResult
deriving DecidableEq

/-- Lines 48-58: mean of the per-claim scores (0.0 when empty) and report
assembly. -/
def aggregate_report (checks : List VerificationResult) : ConsistencyReport :=
  { overall_score :=
      if checks.isEmpty then 0.0
      else (checks.map (fun c => c.consistency_score)).sum / (checks.length : ℚ)
    checked_claims := checks.length
    claim_checks := checks }

/-- `check_narrative_consistency`, returning the `(report, score)` pair.  The
outer `try/except` re-raises as a hard failure, modelled by the `Except`
result type; no statement in the body can raise in the model (extraction and
per-claim verification handle their own faults), so the body always succeeds. -/
def check_narrative_consistency (sia : List Char → ℚ)
    (sentences : List (List Char)) (d : FinancialData) :
    Except (List Char) (ConsistencyReport × ℚ) :=
  let checks := (extract_factual_claims sentences).map
    (fun c => verify_claim_against_data sia c d)
  let report := aggregate_report checks
  .ok (report, report.overall_score)

/-- The report as the Python dict handed to `compute_consistency_score`:
each key may be absent. -/
structure ReportDict where
  overall_score : Option ℚ
  checked_claims : Option Nat
  claim_checks : Option (List VerificationResult)

/-- The dict produced for an actual report (all keys present). -/
def ConsistencyReport.toDict (r : ConsistencyReport) : ReportDict :=
  ⟨some r.overall_score, some r.checked_claims, some r.claim_checks⟩

/-- `compute_consistency_score`: `0.0` for a falsy report or a missing
`overall_score` key, else that field. -/
def compute_consistency_score (r : Option ReportDict) : ℚ :=
  match r with
  | none => 0.0
  | some dct =>
    match dct.overall_score with
    | none => 0.0
    | some s => s

/-! ### Derived forms and spec-worded reference definitions -/

/-- Assemble a `VerificationResult` from a claim and a score/verdict pair, the
shape returned at line 325 of the source. -/
def mkResult (c : Claim) (p : ℚ × Verdict) : VerificationResult :=
  ⟨c.claim_text, c.claim_type, p.1, p.2⟩

/-- The dataset lacks one of the five mandatory columns. -/
def mandatory_missing (d : FinancialData) : Prop :=
  d.date = none ∨ d.low = none ∨ d.high = none ∨ d.close = none ∨ d.volume = none

/-- Spec-worded rule of C2 (for comparison with the implementation): the
numeric tokens are processed only until the first one producing a non-default
outcome, so the first token alone fixes the result. -/
def specFirstTokenPrice (pmin pmax : ℚ) : List ℚ → ℚ × Verdict
  | [] => (0.5, .unverified)
  | n :: _ =>
    if inNarrowPrice pmin pmax n then (0.9, .verified)
    else if inWidePrice pmin pmax n then (0.7, .partially_verified)
    else (0.2, .contradicted)

/-- Spec-worded rule of C4 (for comparison with the implementation): a match
is claimed-up with an actual rise, or claimed-down with an actual fall, the
actual direction being the sign of `last_close - first_close`. -/
def specTrendOutcome (isUp isDown : Bool) (price_change : ℚ) : ℚ × Verdict :=
  if (isUp ∧ price_change > 0) ∨ (isDown ∧ price_change < 0) then (0.9, .verified)
  else (0.1, .contradicted)

/-! ### Concrete inputs used by counterexamples and witnesses -/

/-- A stand-in for the external sentiment analyzer (neutral on every text). -/
def sia0 : List Char → ℚ := fun _ => 0

def c2text : List Char := "The price rose from $1000 to $150.".toList

def c4text : List Char := "The stock showed a significant downward trend.".toList

def c7text : List Char := "On 2022-06-15, the stock surged.".toList

def c8text : List Char := "The stock increased by 12%.".toList

def s1text : List Char := "The price of $150.00 was recorded.".toList

/-- Two trading days with Low range 140-160, Close 150 → 155. -/
def dC2 : FinancialData :=
  { date := some ["2022-01-01".toList, "2022-01-02".toList]
    low := some [140, 150], high := some [155, 160]
    close := some [150, 155], volume := some [1000, 1200]
    volatility_20d := none }

def stC2 : RefStats :=
  { start_date := "2022-01-01".toList, end_date := "2022-01-02".toList
    first_close := 150, last_close := 155, price_change := 5
    price_change_pct := 10 / 3, price_min := 140, price_max := 160
    avg_volume := 1100, max_volume := 1200, volatility := none }

/-- Close 200 → 221: an actual change of 10.5 percent. -/
def dPct : FinancialData :=
  { date := some ["2022-01-01".toList, "2022-01-02".toList]
    low := some [140, 150], high := some [155, 160]
    close := some [200, 221], volume := some [1000, 1200]
    volatility_20d := none }

def stPct : RefStats :=
  { start_date := "2022-01-01".toList, end_date := "2022-01-02".toList
    first_close := 200, last_close := 221, price_change := 21
    price_change_pct := 21 / 2, price_min := 140, price_max := 160
    avg_volume := 1100, max_volume := 1200, volatility := none }

/-- A flat series: `last_close = first_close`. -/
def dFlat : FinancialData :=
  { date := some ["2022-01-01".toList, "2022-01-02".toList]
    low := some [95, 96], high := some [105, 104]
    close := some [100, 100], volume := some [10, 20]
    volatility_20d := none }

def stFlat : RefStats :=
  { start_date := "2022-01-01".toList, end_date := "2022-01-02".toList
    first_close := 100, last_close := 100, price_change := 0
    price_change_pct := 0, price_min := 95, price_max := 105
    avg_volume := 15, max_volume := 20, volatility := none }

/-- A falling series: Close 100 → 90. -/
def dDown : FinancialData :=
  { date := some ["2022-01-01".toList, "2022-01-02".toList]
    low := some [85, 86], high := some [105, 104]
    close := some [100, 90], volume := some [10, 20]
    volatility_20d := none }

def stDown : RefStats :=
  { start_date := "2022-01-01".toList, end_date := "2022-01-02".toList
    first_close := 100, last_close := 90, price_change := -10
    price_change_pct := -10, price_min := 85, price_max := 105
    avg_volume := 15, max_volume := 20, volatility := none }

/-- A series covering all of 2022. -/
def dDates : FinancialData :=
  { date := some ["2022-01-01".toList, "2022-12-31".toList]
    low := some [95, 96], high := some [105, 104]
    close := some [100, 100], volume := some [10, 20]
    volatility_20d := none }

def stDates : RefStats :=
  { start_date := "2022-01-01".toList, end_date := "2022-12-31".toList
    first_close := 100, last_close := 100, price_change := 0
    price_change_pct := 0, price_min := 95, price_max := 105
    avg_volume := 15, max_volume := 20, volatility := none }

/-- The same series shifted to 2023. -/
def dDates2 : FinancialData :=
  { date := some ["2023-01-01".toList, "2023-12-31".toList]
    low := some [95, 96], high := some [105, 104]
    close := some [100, 100], volume := some [10, 20]
    volatility_20d := none }

def stDates2 : RefStats :=
  { start_date := "2023-01-01".toList, end_date := "2023-12-31".toList
    first_close := 100, last_close := 100, price_change := 0
    price_change_pct := 0, price_min := 95, price_max := 105
    avg_volume := 15, max_volume := 20, volatility := none }

/-- A dataset with the mandatory `Volume` column absent. -/
def dMissingVolume : FinancialData :=
  { date := some ["2022-01-01".toList], low := some [140], high := some [155]
    close := some [150], volume := none, volatility_20d := none }

/-! ### Helper lemmas -/

theorem priceLoop_eq (pmin pmax : ℚ) (ns : List ℚ) (acc : ℚ × Verdict) :
    priceLoop pmin pmax ns acc =
      match ns.find? (fun n => inNarrowPrice pmin pmax n || inWidePrice pmin pmax n) with
      | some n =>
        if inNarrowPrice pmin pmax n then (0.9, .verified)
        else (0.7, .partially_verified)
      | none => if ns.isEmpty then acc else (0.2, .contradicted) := by
  induction ns generalizing acc with
  | nil => rfl
  | cons n ns ih =>
    by_cases h1 : inNarrowPrice pmin pmax n
    · rw [List.find?_cons_of_pos _ (by simp [h1])]
      simp [priceLoop, h1]
    · by_cases h2 : inWidePrice pmin pmax n
      · rw [List.find?_cons_of_pos _ (by simp [h2])]
        simp [priceLoop, h1, h2]
      · rw [List.find?_cons_of_neg _ (by simp [h1, h2])]
        rw [show priceLoop pmin pmax (n :: ns) acc
            = priceLoop pmin pmax ns (0.2, .contradicted) by simp [priceLoop, h1, h2]]
        rw [ih]
        cases hf : ns.find? (fun n => inNarrowPrice pmin pmax n || inWidePrice pmin pmax n) with
        | none => simp [List.isEmpty_cons, ite_self]
        | some m => simp

theorem pctLoop_eq (apct : ℚ) (ps : List ℚ) (acc : ℚ × Verdict) :
    pctLoop apct ps acc =
      match ps.find? (fun p => decide (|p - apct| ≤ 5)) with
      | some p =>
        if |p - apct| ≤ 2 then (0.95, .verified)
        else (0.7, .partially_verified)
      | none => if ps.isEmpty then acc else (0.3, .contradicted) := by
  induction ps generalizing acc with
  | nil => rfl
  | cons p ps ih =>
    by_cases h1 : |p - apct| ≤ 2
    · rw [List.find?_cons_of_pos _ (by simp; linarith)]
      simp [pctLoop, h1]
    · by_cases h2 : |p - apct| ≤ 5
      · rw [List.find?_cons_of_pos _ (by simpa using h2)]
        simp [pctLoop, h1, h2]
      · rw [List.find?_cons_of_neg _ (by simpa using h2)]
        rw [show pctLoop apct (p :: ps) acc
            = pctLoop apct ps (0.3, .contradicted) by simp [pctLoop, h1, h2]]
        rw [ih]
        cases hf : ps.find? (fun p => decide (|p - apct| ≤ 5)) with
        | none => simp [List.isEmpty_cons, ite_self]
        | some m => simp

theorem dateLoop_eq (sd ed : List Char) (ds : List (List Char)) (acc : ℚ × Verdict) :
    dateLoop sd ed ds acc =
      match ds.find? (fun dt => dateInRange sd ed dt) with
      | some _ => (0.9, .verified)
      | none => if ds.isEmpty then acc else (0.1, .contradicted) := by
  induction ds generalizing acc with
  | nil => rfl
  | cons dt ds ih =>
    by_cases h1 : dateInRange sd ed dt
    · rw [List.find?_cons_of_pos _ (by simpa using h1)]
      simp [dateLoop, h1]
    · rw [List.find?_cons_of_neg _ (by simpa using h1)]
      rw [show dateLoop sd ed (dt :: ds) acc
          = dateLoop sd ed ds (0.1, .contradicted) by simp [dateLoop, h1]]
      rw [ih]
      cases hf : ds.find? (fun dt => dateInRange sd ed dt) with
      | none => simp [List.isEmpty_cons, ite_self]
      | some m => simp

theorem sum_nonneg_le_length (l : List ℚ) (h : ∀ x ∈ l, 0 ≤ x ∧ x ≤ 1) :
    0 ≤ l.sum ∧ l.sum ≤ (l.length : ℚ) := by
  induction l with
  | nil => simp
  | cons x xs ih =>
    obtain ⟨hx0, hx1⟩ := h x (by simp)
    obtain ⟨h0, h1⟩ := ih (fun y hy => h y (by simp [hy]))
    refine ⟨by rw [List.sum_cons]; linarith, ?_⟩
    rw [List.sum_cons, List.length_cons]
    push_cast
    linarith

theorem computeStats_none_of_missing (d : FinancialData) (h : mandatory_missing d) :
    computeStats d = none := by
  unfold computeStats
  split
  · rcases h with h | h | h | h | h <;> simp_all
  · rfl

theorem verify_error_of_stats_none (sia : List Char → ℚ) (c : Claim)
    (d : FinancialData) (h : computeStats d = none) :
    verify_claim_against_data sia c d = errorResult c := by
  simp [verify_claim_against_data, h]

theorem computeStats_price_change (d : FinancialData) (st : RefStats)
    (h : computeStats d = some st) :
    st.price_change = st.last_close - st.first_close := by
  unfold computeStats at h
  split at h
  · split at h
    · exact Option.noConfusion h
    · injection h with h
      subst h
      rfl
  · exact Option.noConfusion h

theorem takeNum_dollar (t : List Char) : takeNum ('$' :: t) = none := rfl

theorem matchNumber_isSome_of_matchPct (s : List Char)
    (h : (matchPct s).isSome) : (matchNumber s).isSome := by
  cases s with
  | nil => simp [show matchPct [] = none from rfl] at h
  | cons c t =>
    by_cases hc : c = '$'
    · subst hc
      simp [matchPct, takeNum_dollar] at h
    · rw [matchNumber, if_neg hc]
      cases htn : takeNum (c :: t) with
      | none => simp [matchPct, htn] at h
      | some p => simp

theorem reSearch_number_of_pct (s : List Char)
    (h : reSearch matchPct s = true) : reSearch matchNumber s = true := by
  induction s with
  | nil =>
    rw [reSearch] at h ⊢
    exact matchNumber_isSome_of_matchPct [] h
  | cons c rest ih =>
    rw [reSearch] at h ⊢
    rcases Bool.or_eq_true _ _ |>.mp h with h1 | h1
    · exact Bool.or_eq_true _ _ |>.mpr (.inl (matchNumber_isSome_of_matchPct _ h1))
    · exact Bool.or_eq_true _ _ |>.mpr (.inr (ih h1))

theorem priceSearch_of_pctSearch (s : List Char)
    (h : pctSearch s = true) : priceSearch s = true :=
  reSearch_number_of_pct s h

theorem classifySentence_empty : classifySentence [] = none := by decide

theorem classifySentence_some (s : List Char) (c : Claim)
    (h : classifySentence s = some c) :
    c.claim_text = s ∧ s ≠ [] ∧
    leadsWith "#".toList s = false ∧
    containsSub "disclaimer".toList (lowerStr s) = false ∧
    containsSub "note:".toList (lowerStr s) = false ∧
    c.claim_type ≠ .percentage_claim ∧ c.claim_type ≠ .percentage_trend_claim ∧
    c.claim_type ∈ [ClaimType.price_claim, .price_trend_claim, .percentage_claim,
      .percentage_trend_claim, .date_specific_claim, .trend_claim,
      .volatility_claim, .comparison_claim] := by
  have hne : s ≠ [] := by
    rintro rfl
    rw [classifySentence_empty] at h
    exact Option.noConfusion h
  unfold classifySentence at h
  split_ifs at h <;>
    first
      | exact Option.noConfusion h
      | exact absurd (priceSearch_of_pctSearch s (by assumption)) (by assumption)
      | (injection h with h; subst h;
         refine ⟨rfl, hne, ?_, ?_, ?_, by simp, by simp, by simp⟩ <;> simp_all)

theorem exists_of_mem_extract (ss : List (List Char)) (c : Claim)
    (h : c ∈ extract_factual_claims ss) :
    ∃ s, s ∈ ss ∧ classifySentence s = some c := by
  have h2 : c ∈ ss.filterMap classifySentence :=
    (List.take_sublist _ _).subset h
  exact List.mem_filterMap.mp h2

theorem filterMap_text_sublist (ss : List (List Char)) :
    ((ss.filterMap classifySentence).map (fun c => c.claim_text)).Sublist ss := by
  induction ss with
  | nil => simp
  | cons s ss ih =>
    cases hc : classifySentence s with
    | none =>
      rw [List.filterMap_cons_none hc]
      exact ih.cons s
    | some c =>
      rw [List.filterMap_cons_some hc, List.map_cons,
        (classifySentence_some s c hc).1]
      exact ih.cons₂ s

theorem priceLoop_score_bounds (pmin pmax : ℚ) (ns : List ℚ) (accs : ℚ)
    (accv : Verdict) (h0 : 0 ≤ accs) (h1 : accs ≤ 1) :
    0 ≤ (priceLoop pmin pmax ns (accs, accv)).1 ∧
    (priceLoop pmin pmax ns (accs, accv)).1 ≤ 1 := by
  induction ns generalizing accs accv with
  | nil => exact ⟨h0, h1⟩
  | cons n ns ih =>
    simp only [priceLoop]
    split_ifs
    · norm_num
    · norm_num
    · refine ih _ _ ?_ ?_ <;> norm_num

theorem pctLoop_score_bounds (apct : ℚ) (ps : List ℚ) (accs : ℚ) (accv : Verdict)
    (h0 : 0 ≤ accs) (h1 : accs ≤ 1) :
    0 ≤ (pctLoop apct ps (accs, accv)).1 ∧ (pctLoop apct ps (accs, accv)).1 ≤ 1 := by
  induction ps generalizing accs accv with
  | nil => exact ⟨h0, h1⟩
  | cons pp ps ih =>
    simp only [pctLoop]
    split_ifs
    · norm_num
    · norm_num
    · refine ih _ _ ?_ ?_ <;> norm_num

theorem dateLoop_score_bounds (sd ed : List Char) (ds : List (List Char))
    (accs : ℚ) (accv : Verdict) (h0 : 0 ≤ accs) (h1 : accs ≤ 1) :
    0 ≤ (dateLoop sd ed ds (accs, accv)).1 ∧ (dateLoop sd ed ds (accs, accv)).1 ≤ 1 := by
  induction ds generalizing accs accv with
  | nil => exact ⟨h0, h1⟩
  | cons dt ds ih =>
    simp only [dateLoop]
    split_ifs
    · norm_num
    · refine ih _ _ ?_ ?_ <;> norm_num

theorem verify_score_bounds (sia : List Char → ℚ) (c : Claim) (d : FinancialData) :
    0 ≤ (verify_claim_against_data sia c d).consistency_score ∧
    (verify_claim_against_data sia c d).consistency_score ≤ 1 := by
  obtain ⟨t, ty⟩ := c
  cases hst : computeStats d with
  | none =>
    simp only [verify_claim_against_data, hst, errorResult]
    norm_num
  | some st =>
    cases ty <;> simp only [verify_claim_against_data, hst]
    case price_claim | price_trend_claim =>
      exact priceLoop_score_bounds _ _ _ _ _ (by norm_num) (by norm_num)
    case percentage_claim | percentage_trend_claim =>
      exact pctLoop_score_bounds _ _ _ _ (by norm_num) (by norm_num)
    case date_specific_claim =>
      exact dateLoop_score_bounds _ _ _ _ _ (by norm_num) (by norm_num)
    case trend_claim => split_ifs <;> norm_num
    case volatility_claim =>
      cases hv : st.volatility with
      | none => simp only [hv]; norm_num
      | some v => simp only [hv]; split_ifs <;> norm_num
    case comparison_claim => split_ifs <;> norm_num

/-! ### Claim theorems -/

/-- C3: `extract_factual_claims` never returns a claim of type
`percentage_claim` or `percentage_trend_claim`: a sentence matching the
percentage pattern necessarily matches the price pattern as well, so the
earlier price branch of the first-match-wins classifier always claims such
a sentence first and the percentage branch is unreachable. -/
theorem C3_no_percentage_claims (ss : List (List Char)) (c : Claim)
    (h : c ∈ extract_factual_claims ss) :
    c.claim_type ≠ .percentage_claim ∧ c.claim_type ≠ .percentage_trend_claim := by
  obtain ⟨s, -, hs⟩ := exists_of_mem_extract ss c h
  obtain ⟨-, -, -, -, -, h1, h2, -⟩ := classifySentence_some s c hs
  exact ⟨h1, h2⟩

/-- Witness for C3 at a concrete one-sentence narrative. -/
theorem C3_witness :
    (⟨s1text, .price_claim⟩ : Claim).claim_type ≠ .percentage_claim ∧
    (⟨s1text, .price_claim⟩ : Claim).claim_type ≠ .percentage_trend_claim :=
  C3_no_percentage_claims [s1text] ⟨s1text, .price_claim⟩ (by decide)

/-- C6: extraction returns at most 15 claims whose texts form a sublist of
the sentence list (original order preserved); each claim has non-empty text
and a type from the fixed enumeration, and no header sentence and no
sentence containing "disclaimer" or "note:" (case-insensitive) appears
among the claims. -/
theorem C6_extraction_shape (ss : List (List Char)) :
    (extract_factual_claims ss).length ≤ 15 ∧
    ((extract_factual_claims ss).map (fun c => c.claim_text)).Sublist ss ∧
    ∀ c ∈ extract_factual_claims ss,
      c.claim_text ≠ [] ∧
      leadsWith "#".toList c.claim_text = false ∧
      containsSub "disclaimer".toList (lowerStr c.claim_text) = false ∧
      containsSub "note:".toList (lowerStr c.claim_text) = false ∧
      c.claim_type ∈ [ClaimType.price_claim, .price_trend_claim, .percentage_claim,
        .percentage_trend_claim, .date_specific_claim, .trend_claim,
        .volatility_claim, .comparison_claim] := by
  refine ⟨?_, ?_, ?_⟩
  · exact List.length_take_le _ _
  · exact ((List.take_sublist _ _).map _).trans (filterMap_text_sublist ss)
  · intro c hc
    obtain ⟨s, -, hs⟩ := exists_of_mem_extract ss c hc
    obtain ⟨h1, h2, h3, h4, h5, -, -, h8⟩ := classifySentence_some s c hs
    rw [h1]
    exact ⟨h2, h3, h4, h5, h8⟩

/-- Witness for C6 at a concrete one-sentence narrative. -/
theorem C6_witness :
    (extract_factual_claims [s1text]).length ≤ 15 ∧
    ((⟨s1text, ClaimType.price_claim⟩ : Claim).claim_text ≠ [] ∧
      leadsWith "#".toList (⟨s1text, ClaimType.price_claim⟩ : Claim).claim_text = false ∧
      containsSub "disclaimer".toList
        (lowerStr (⟨s1text, ClaimType.price_claim⟩ : Claim).claim_text) = false ∧
      containsSub "note:".toList
        (lowerStr (⟨s1text, ClaimType.price_claim⟩ : Claim).claim_text) = false ∧
      (⟨s1text, ClaimType.price_claim⟩ : Claim).claim_type ∈
        [ClaimType.price_claim, .price_trend_claim, .percentage_claim,
          .percentage_trend_claim, .date_specific_claim, .trend_claim,
          .volatility_claim, .comparison_claim]) :=
  ⟨(C6_extraction_shape [s1text]).1,
    (C6_extraction_shape [s1text]).2.2 ⟨s1text, .price_claim⟩ (by decide)⟩

/-- C5: the report's overall score is the arithmetic mean of the per-claim
scores (0.0 when there are none), checked_claims is the number of checks,
claim_checks preserves the input order, and the standalone accessor
`compute_consistency_score` returns the report's overall score, or 0.0 when
the report is absent or lacks that field. -/
theorem C5_aggregation :
    (∀ checks : List VerificationResult, checks ≠ [] →
      (aggregate_report checks).overall_score =
        (checks.map (fun r => r.consistency_score)).sum / (checks.length : ℚ)) ∧
    (aggregate_report []).overall_score = 0 ∧
    (∀ checks : List VerificationResult,
      (aggregate_report checks).checked_claims = checks.length) ∧
    (∀ checks : List VerificationResult,
      (aggregate_report checks).claim_checks = checks) ∧
    (∀ r : ConsistencyReport,
      compute_consistency_score (some r.toDict) = r.overall_score) ∧
    compute_consistency_score none = 0 ∧
    (∀ dct : ReportDict, dct.overall_score = none →
      compute_consistency_score (some dct) = 0) := by
  refine ⟨?_, by norm_num [aggregate_report], fun _ => rfl, fun _ => rfl,
    fun _ => rfl, by norm_num [compute_consistency_score], ?_⟩
  · intro checks hne
    simp [aggregate_report, List.isEmpty_iff, hne]
  · intro dct hd
    simp only [compute_consistency_score, hd]
    norm_num

/-- Witness for C5 at a concrete one-element check list. -/
theorem C5_witness :
    (aggregate_report [errorResult ⟨s1text, ClaimType.price_claim⟩]).overall_score =
      (([errorResult ⟨s1text, ClaimType.price_claim⟩].map
        (fun r => r.consistency_score)).sum) /
        (([errorResult ⟨s1text, ClaimType.price_claim⟩] :
          List VerificationResult).length : ℚ) ∧
    compute_consistency_score none = 0 :=
  ⟨C5_aggregation.1 _ (by simp), C5_aggregation.2.2.2.2.2.1⟩

/-- C9: every verification result (default, rule-branch, or error) has its
consistency score in [0,1]; consequently every report produced by
`check_narrative_consistency` has overall score in [0,1] and its
checked_claims equals the length of claim_checks. -/
theorem C9_scores_in_unit_interval :
    (∀ (sia : List Char → ℚ) (c : Claim) (d : FinancialData),
      0 ≤ (verify_claim_against_data sia c d).consistency_score ∧
      (verify_claim_against_data sia c d).consistency_score ≤ 1) ∧
    (∀ (sia : List Char → ℚ) (ss : List (List Char)) (d : FinancialData)
      (rep : ConsistencyReport) (sc : ℚ),
      check_narrative_consistency sia ss d = .ok (rep, sc) →
      0 ≤ rep.overall_score ∧ rep.overall_score ≤ 1 ∧
      rep.checked_claims = rep.claim_checks.length) := by
  refine ⟨verify_score_bounds, ?_⟩
  intro sia ss d rep sc h
  simp only [check_narrative_consistency, Except.ok.injEq, Prod.mk.injEq] at h
  obtain ⟨rfl, -⟩ := h
  have hall : ∀ q ∈ ((extract_factual_claims ss).map
      (fun c => verify_claim_against_data sia c d)).map
      (fun r => r.consistency_score), 0 ≤ q ∧ q ≤ 1 := by
    intro q hq
    rw [List.map_map] at hq
    obtain ⟨c, -, rfl⟩ := List.mem_map.mp hq
    exact verify_score_bounds sia c d
  obtain ⟨hs0, hs1⟩ := sum_nonneg_le_length _ hall
  rw [List.length_map] at hs1
  refine ⟨?_, ?_, rfl⟩ <;>
    simp only [aggregate_report] <;>
    by_cases he : ((extract_factual_claims ss).map
      (fun c => verify_claim_against_data sia c d)).isEmpty
  · rw [if_pos he]; norm_num
  · rw [if_neg he]
    exact div_nonneg hs0 (Nat.cast_nonneg _)
  · rw [if_pos he]; norm_num
  · rw [if_neg he]
    have hlen : 0 < (((extract_factual_claims ss).map
        (fun c => verify_claim_against_data sia c d)).length : ℚ) := by
      have : ((extract_factual_claims ss).map
          (fun c => verify_claim_against_data sia c d)) ≠ [] := by
        simpa [List.isEmpty_iff] using he
      exact_mod_cast Nat.pos_of_ne_zero (by simpa using this)
    exact (div_le_one hlen).mpr hs1

/-- Witness for C9 at a concrete claim, dataset and narrative. -/
theorem C9_witness :
    (0 ≤ (verify_claim_against_data sia0 ⟨s1text, .price_claim⟩ dC2).consistency_score ∧
      (verify_claim_against_data sia0 ⟨s1text, .price_claim⟩ dC2).consistency_score ≤ 1) ∧
    (0 ≤ (aggregate_report ((extract_factual_claims [s1text]).map
        (fun c => verify_claim_against_data sia0 c dC2))).overall_score ∧
      (aggregate_report ((extract_factual_claims [s1text]).map
        (fun c => verify_claim_against_data sia0 c dC2))).overall_score ≤ 1 ∧
      (aggregate_report ((extract_factual_claims [s1text]).map
        (fun c => verify_claim_against_data sia0 c dC2))).checked_claims =
      (aggregate_report ((extract_factual_claims [s1text]).map
        (fun c => verify_claim_against_data sia0 c dC2))).claim_checks.length) :=
  ⟨C9_scores_in_unit_interval.1 sia0 ⟨s1text, .price_claim⟩ dC2,
    C9_scores_in_unit_interval.2 sia0 [s1text] dC2 _ _ rfl⟩

/-- C10: verification is a deterministic function of the claim and the
reference data: equal inputs yield equal verification results. -/
theorem C10_deterministic (sia : List Char → ℚ) (c c' : Claim)
    (d d' : FinancialData) (h1 : c = c') (h2 : d = d') :
    verify_claim_against_data sia c d = verify_claim_against_data sia c' d' := by
  rw [h1, h2]

/-- Witness for C10 at a concrete claim and dataset. -/
theorem C10_witness :
    verify_claim_against_data sia0 ⟨s1text, .price_claim⟩ dC2 =
    verify_claim_against_data sia0 ⟨s1text, .price_claim⟩ dC2 :=
  C10_deterministic sia0 ⟨s1text, .price_claim⟩ ⟨s1text, .price_claim⟩ dC2 dC2 rfl rfl


/-! ### Evaluation lemmas for the concrete datasets.  Core rational
arithmetic does not reduce definitionally, so these are established with
`norm_num`; the string-level parts are decidable. -/

theorem stats_dC2 : computeStats dC2 = some stC2 := by
  have h1 : strLe "2022-01-01".toList "2022-01-02".toList = true := by decide
  simp only [computeStats, dC2, stC2, List.foldl, strMin, strMax, h1, if_true,
    List.getLastD, Option.some.injEq, RefStats.mk.injEq]
  norm_num [min_def, max_def]

theorem stats_dPct : computeStats dPct = some stPct := by
  have h1 : strLe "2022-01-01".toList "2022-01-02".toList = true := by decide
  simp only [computeStats, dPct, stPct, List.foldl, strMin, strMax, h1, if_true,
    List.getLastD, Option.some.injEq, RefStats.mk.injEq]
  norm_num [min_def, max_def]

theorem stats_dFlat : computeStats dFlat = some stFlat := by
  have h1 : strLe "2022-01-01".toList "2022-01-02".toList = true := by decide
  simp only [computeStats, dFlat, stFlat, List.foldl, strMin, strMax, h1, if_true,
    List.getLastD, Option.some.injEq, RefStats.mk.injEq]
  norm_num [min_def, max_def]

theorem stats_dDown : computeStats dDown = some stDown := by
  have h1 : strLe "2022-01-01".toList "2022-01-02".toList = true := by decide
  simp only [computeStats, dDown, stDown, List.foldl, strMin, strMax, h1, if_true,
    List.getLastD, Option.some.injEq, RefStats.mk.injEq]
  norm_num [min_def, max_def]

theorem stats_dDates : computeStats dDates = some stDates := by
  have h1 : strLe "2022-01-01".toList "2022-12-31".toList = true := by decide
  simp only [computeStats, dDates, stDates, List.foldl, strMin, strMax, h1, if_true,
    List.getLastD, Option.some.injEq, RefStats.mk.injEq]
  norm_num [min_def, max_def]

theorem stats_dDates2 : computeStats dDates2 = some stDates2 := by
  have h1 : strLe "2023-01-01".toList "2023-12-31".toList = true := by decide
  simp only [computeStats, dDates2, stDates2, List.foldl, strMin, strMax, h1, if_true,
    List.getLastD, Option.some.injEq, RefStats.mk.injEq]
  norm_num [min_def, max_def]

/-- C1 counterexample: with the mandatory `Volume` column absent, the
verification call does not raise a hard error; it returns a consistency
report whose single claim check is a per-claim error result, so per-claim
verification did occur and the caller does receive a report. -/
theorem C1_counterexample :
    check_narrative_consistency sia0 [s1text] dMissingVolume =
      .ok (⟨0, 1, [⟨s1text, .price_claim, 0, .error⟩]⟩, 0) := by
  have h1 : extract_factual_claims [s1text] = [⟨s1text, .price_claim⟩] := by decide
  have h2 : computeStats dMissingVolume = none :=
    computeStats_none_of_missing _ (Or.inr (Or.inr (Or.inr (Or.inr rfl))))
  have h3 := verify_error_of_stats_none sia0 ⟨s1text, .price_claim⟩ dMissingVolume h2
  simp only [check_narrative_consistency, h1, List.map_cons, List.map_nil, h3,
    aggregate_report, errorResult, Except.ok.injEq, Prod.mk.injEq,
    ConsistencyReport.mk.injEq, List.isEmpty_cons, List.sum_cons, List.sum_nil,
    List.length_cons, List.length_nil]
  norm_num

/-- C1 (amended): when the dataset lacks a mandatory column, the reference
statistics cannot be computed and each per-claim verification is caught
locally, yielding an error result with score 0.0; the whole call still
succeeds, returning a complete report with overall score 0.0, rather than
failing before per-claim verification. -/
theorem C1_missing_column_reports_errors (sia : List Char → ℚ)
    (ss : List (List Char)) (d : FinancialData) (h : mandatory_missing d) :
    check_narrative_consistency sia ss d =
      .ok (aggregate_report ((extract_factual_claims ss).map errorResult),
        (aggregate_report ((extract_factual_claims ss).map errorResult)).overall_score) ∧
    (aggregate_report ((extract_factual_claims ss).map errorResult)).overall_score = 0 ∧
    ∀ chk ∈ (aggregate_report ((extract_factual_claims ss).map errorResult)).claim_checks,
      chk.consistency_score = 0 ∧ chk.verification_result = .error := by
  have hstats := computeStats_none_of_missing d h
  have hmap : (extract_factual_claims ss).map (fun c => verify_claim_against_data sia c d)
      = (extract_factual_claims ss).map errorResult := by
    apply List.map_congr_left
    intro c _
    exact verify_error_of_stats_none sia c d hstats
  refine ⟨?_, ?_, ?_⟩
  · simp only [check_narrative_consistency, hmap]
  · simp only [aggregate_report]
    by_cases he : ((extract_factual_claims ss).map errorResult).isEmpty
    · rw [if_pos he]; norm_num
    · rw [if_neg he]
      have hz : (((extract_factual_claims ss).map errorResult).map
          (fun c => c.consistency_score)).sum = 0 := by
        apply List.sum_eq_zero
        intro q hq
        rw [List.map_map] at hq
        obtain ⟨c, -, rfl⟩ := List.mem_map.mp hq
        norm_num [errorResult]
      rw [hz, zero_div]
  · intro chk hchk
    obtain ⟨c, -, rfl⟩ := List.mem_map.mp hchk
    exact ⟨by norm_num [errorResult], rfl⟩

/-- Witness for the amended C1 at a concrete narrative and dataset. -/
theorem C1_witness :
    check_narrative_consistency sia0 [s1text] dMissingVolume =
      .ok (aggregate_report ((extract_factual_claims [s1text]).map errorResult),
        (aggregate_report ((extract_factual_claims [s1text]).map errorResult)).overall_score) ∧
    (aggregate_report ((extract_factual_claims [s1text]).map errorResult)).overall_score = 0 :=
  ⟨(C1_missing_column_reports_errors sia0 [s1text] dMissingVolume
      (Or.inr (Or.inr (Or.inr (Or.inr rfl))))).1,
    (C1_missing_column_reports_errors sia0 [s1text] dMissingVolume
      (Or.inr (Or.inr (Or.inr (Or.inr rfl))))).2.1⟩

/-- C2 counterexample: for the price claim "The price rose from $1000 to
$150." against a price range of [140, 160], the first numeric token (1000)
produces the non-default outcome 0.2 contradicted, yet the final result is
0.9 verified from the second token, because the contradicted branch does
not stop the loop. -/
theorem C2_counterexample :
    verify_claim_against_data sia0 ⟨c2text, .price_claim⟩ dC2 =
      ⟨c2text, .price_claim, 0.9, .verified⟩ ∧
    (computeStats dC2).map RefStats.price_min = some 140 ∧
    (computeStats dC2).map RefStats.price_max = some 160 ∧
    extracted_numbers c2text = [1000, 150] ∧
    specFirstTokenPrice 140 160 (extracted_numbers c2text) = (0.2, .contradicted) := by
  have hn : extracted_numbers c2text = [1000, 150] := by decide
  refine ⟨?_, ?_, ?_, hn, ?_⟩
  · simp only [verify_claim_against_data, stats_dC2, stC2, hn]
    norm_num [priceLoop, inNarrowPrice, inWidePrice]
  · rw [stats_dC2]; rfl
  · rw [stats_dC2]; rfl
  · rw [hn]
    norm_num [specFirstTokenPrice, inNarrowPrice, inWidePrice]

/-- C2 (amended): for price / price_trend claims the result is determined by
the first numeric token lying in the narrow range [min*0.9, max*1.1] (0.9
verified) or the wide range [min*0.7, max*1.3] (0.7 partially verified); a
token outside both ranges sets 0.2 contradicted without stopping the scan,
so a later qualifying token overrides it; the result is 0.2 contradicted
only when no token qualifies, and the 0.5 unverified default only when the
claim has no numeric tokens. -/
theorem C2_first_qualifying_token (sia : List Char → ℚ) (c : Claim)
    (d : FinancialData) (st : RefStats) (h1 : computeStats d = some st)
    (h2 : c.claim_type = .price_claim ∨ c.claim_type = .price_trend_claim) :
    verify_claim_against_data sia c d =
      mkResult c
        (match (extracted_numbers c.claim_text).find?
            (fun n => inNarrowPrice st.price_min st.price_max n ||
              inWidePrice st.price_min st.price_max n) with
        | some n =>
          if inNarrowPrice st.price_min st.price_max n then (0.9, .verified)
          else (0.7, .partially_verified)
        | none =>
          if (extracted_numbers c.claim_text).isEmpty then (0.5, .unverified)
          else (0.2, .contradicted)) := by
  obtain ⟨t, ty⟩ := c
  rcases h2 with h2 | h2 <;> replace h2 : ty = _ := h2 <;> subst h2 <;>
    simp only [verify_claim_against_data, h1, mkResult] <;>
    rw [priceLoop_eq]

/-- Witness for the amended C2 at the scenario-1 claim and dataset. -/
theorem C2_witness :
    verify_claim_against_data sia0 ⟨s1text, .price_claim⟩ dC2 =
      mkResult ⟨s1text, .price_claim⟩
        (match (extracted_numbers s1text).find?
            (fun n => inNarrowPrice stC2.price_min stC2.price_max n ||
              inWidePrice stC2.price_min stC2.price_max n) with
        | some n =>
          if inNarrowPrice stC2.price_min stC2.price_max n then (0.9, .verified)
          else (0.7, .partially_verified)
        | none =>
          if (extracted_numbers s1text).isEmpty then (0.5, .unverified)
          else (0.2, .contradicted)) :=
  C2_first_qualifying_token sia0 ⟨s1text, .price_claim⟩ dC2 stC2 stats_dC2 (Or.inl rfl)

/-- C4 counterexample: with a flat series (last_close equal to first_close,
so the sign of the change is zero, not a fall) the code still verifies a
downward-trend claim with score 0.9, whereas the rule as stated in the
claim (a down-claim matches an actual fall) yields 0.1 contradicted. -/
theorem C4_counterexample :
    verify_claim_against_data sia0 ⟨c4text, .trend_claim⟩ dFlat =
      ⟨c4text, .trend_claim, 0.9, .verified⟩ ∧
    (computeStats dFlat).map RefStats.price_change = some 0 ∧
    isDowntrendClaim c4text = true ∧
    specTrendOutcome (isUptrendClaim c4text) (isDowntrendClaim c4text) 0 =
      (0.1, .contradicted) := by
  refine ⟨?_, by rw [stats_dFlat]; rfl, by decide, ?_⟩
  · simp only [verify_claim_against_data, stats_dFlat, stFlat]
    rw [if_pos (Or.inr ⟨by decide, by norm_num⟩)]
  · rw [specTrendOutcome, if_neg]
    rintro (⟨-, hh⟩ | ⟨-, hh⟩) <;> exact absurd hh (by norm_num)

/-- C4 (amended): for trend claims the claimed direction comes from the
uptrend / downtrend keyword lists (case-insensitive substring match) and is
compared with `last_close - first_close`: claimed-up matches a strict rise,
while claimed-down matches any non-rise (`last_close ≤ first_close`,
including the flat case); a match scores 0.9 verified, otherwise 0.1
contradicted.  In particular a down-keyword claim with
`last_close < first_close` is verified with score 0.9. -/
theorem C4_trend_rule (sia : List Char → ℚ) (c : Claim) (d : FinancialData)
    (st : RefStats) (h1 : computeStats d = some st)
    (h2 : c.claim_type = .trend_claim) :
    (verify_claim_against_data sia c d =
      mkResult c
        (if (isUptrendClaim c.claim_text ∧ st.price_change > 0) ∨
            (isDowntrendClaim c.claim_text ∧ ¬ st.price_change > 0)
          then (0.9, .verified) else (0.1, .contradicted))) ∧
    (isDowntrendClaim c.claim_text = true → st.last_close < st.first_close →
      verify_claim_against_data sia c d = mkResult c (0.9, .verified)) := by
  obtain ⟨t, ty⟩ := c
  replace h2 : ty = .trend_claim := h2
  subst h2
  have hmain : verify_claim_against_data sia ⟨t, .trend_claim⟩ d =
      mkResult ⟨t, .trend_claim⟩
        (if (isUptrendClaim t ∧ st.price_change > 0) ∨
            (isDowntrendClaim t ∧ ¬ st.price_change > 0)
          then (0.9, .verified) else (0.1, .contradicted)) := by
    simp only [verify_claim_against_data, h1, mkResult]
  refine ⟨hmain, ?_⟩
  intro hdown hlt
  have hpc := computeStats_price_change d st h1
  have hnp : ¬ st.price_change > 0 := by rw [hpc]; linarith
  rw [hmain, if_pos (Or.inr ⟨hdown, hnp⟩)]

/-- Witness for the amended C4 at the scenario-4 claim and a falling
dataset. -/
theorem C4_witness :
    verify_claim_against_data sia0 ⟨c4text, .trend_claim⟩ dDown =
      mkResult ⟨c4text, .trend_claim⟩ (0.9, .verified) :=
  (C4_trend_rule sia0 ⟨c4text, .trend_claim⟩ dDown stDown stats_dDown rfl).2
    (by decide) (by norm_num [stDown])

/-- C7: for date_specific claims each ISO date token is compared
lexicographically with the dataset's date range: when every token (at least
one) lies within [start, end] the result is score 0.9, verdict verified;
when every token (at least one) lies outside the range the result is score
0.1, verdict contradicted. -/
theorem C7_date_rule (sia : List Char → ℚ) (c : Claim) (d : FinancialData)
    (st : RefStats) (h1 : computeStats d = some st)
    (h2 : c.claim_type = .date_specific_claim) :
    ((∀ dt ∈ extracted_dates c.claim_text,
        dateInRange st.start_date st.end_date dt = true) →
      extracted_dates c.claim_text ≠ [] →
      verify_claim_against_data sia c d = mkResult c (0.9, .verified)) ∧
    ((∀ dt ∈ extracted_dates c.claim_text,
        dateInRange st.start_date st.end_date dt = false) →
      extracted_dates c.claim_text ≠ [] →
      verify_claim_against_data sia c d = mkResult c (0.1, .contradicted)) := by
  obtain ⟨t, ty⟩ := c
  replace h2 : ty = .date_specific_claim := h2
  subst h2
  have hv : verify_claim_against_data sia ⟨t, .date_specific_claim⟩ d =
      mkResult ⟨t, .date_specific_claim⟩
        (dateLoop st.start_date st.end_date (extracted_dates t) (0.5, .unverified)) := by
    simp only [verify_claim_against_data, h1, mkResult]
  constructor
  · intro hall hne
    rw [hv, dateLoop_eq]
    cases hd : extracted_dates t with
    | nil => exact absurd hd hne
    | cons dt ds =>
      simp only [List.find?_cons_of_pos _
        (hall dt (by rw [hd]; exact List.mem_cons_self dt ds))]
  · intro hall hne
    rw [hv, dateLoop_eq]
    have hfn : (extracted_dates t).find?
        (fun dt => dateInRange st.start_date st.end_date dt) = none := by
      apply List.find?_eq_none.mpr
      intro x hx
      simp [hall x hx]
    simp only [hfn]
    rw [if_neg (by simpa [List.isEmpty_iff] using hne)]

/-- Witness for C7: the scenario-3 claim verified against a 2022 dataset and
contradicted against a 2023 dataset. -/
theorem C7_witness :
    verify_claim_against_data sia0 ⟨c7text, .date_specific_claim⟩ dDates =
      mkResult ⟨c7text, .date_specific_claim⟩ (0.9, .verified) ∧
    verify_claim_against_data sia0 ⟨c7text, .date_specific_claim⟩ dDates2 =
      mkResult ⟨c7text, .date_specific_claim⟩ (0.1, .contradicted) :=
  ⟨(C7_date_rule sia0 ⟨c7text, .date_specific_claim⟩ dDates stDates
      stats_dDates rfl).1 (by decide) (by decide),
    (C7_date_rule sia0 ⟨c7text, .date_specific_claim⟩ dDates2 stDates2
      stats_dDates2 rfl).2 (by decide) (by decide)⟩

/-- C8: for percentage / percentage_trend claims each percentage token is
compared with the absolute value of price_change_pct: when every token (at
least one) differs by at most 2 points the result is 0.95 verified, when
every token differs by more than 2 but at most 5 points the result is 0.7
partially verified, and when every token differs by more than 5 points the
result is 0.3 contradicted. -/
theorem C8_percentage_rule (sia : List Char → ℚ) (c : Claim) (d : FinancialData)
    (st : RefStats) (h1 : computeStats d = some st)
    (h2 : c.claim_type = .percentage_claim ∨ c.claim_type = .percentage_trend_claim) :
    ((∀ p ∈ extracted_percentages c.claim_text,
        abs (p - abs st.price_change_pct) ≤ 2) →
      extracted_percentages c.claim_text ≠ [] →
      verify_claim_against_data sia c d = mkResult c (0.95, .verified)) ∧
    ((∀ p ∈ extracted_percentages c.claim_text,
        2 < abs (p - abs st.price_change_pct) ∧
          abs (p - abs st.price_change_pct) ≤ 5) →
      extracted_percentages c.claim_text ≠ [] →
      verify_claim_against_data sia c d = mkResult c (0.7, .partially_verified)) ∧
    ((∀ p ∈ extracted_percentages c.claim_text,
        5 < abs (p - abs st.price_change_pct)) →
      extracted_percentages c.claim_text ≠ [] →
      verify_claim_against_data sia c d = mkResult c (0.3, .contradicted)) := by
  obtain ⟨t, ty⟩ := c
  have hv : verify_claim_against_data sia ⟨t, ty⟩ d =
      mkResult ⟨t, ty⟩
        (pctLoop |st.price_change_pct| (extracted_percentages t) (0.5, .unverified)) := by
    rcases h2 with h2 | h2 <;> replace h2 : ty = _ := h2 <;> subst h2 <;>
      simp only [verify_claim_against_data, h1, mkResult]
  refine ⟨?_, ?_, ?_⟩
  · intro hall hne
    rw [hv, pctLoop_eq]
    cases hd : extracted_percentages t with
    | nil => exact absurd hd hne
    | cons p ps =>
      have hp := hall p (by rw [hd]; exact List.mem_cons_self p ps)
      have hfs : List.find? (fun q => decide (|q - abs st.price_change_pct| ≤ 5))
          (p :: ps) = some p :=
        List.find?_cons_of_pos _ (decide_eq_true (le_trans hp (by norm_num : (2 : ℚ) ≤ 5)))
      simp only [hfs]
      rw [if_pos hp]
  · intro hall hne
    rw [hv, pctLoop_eq]
    cases hd : extracted_percentages t with
    | nil => exact absurd hd hne
    | cons p ps =>
      have hp := hall p (by rw [hd]; exact List.mem_cons_self p ps)
      have hfs : List.find? (fun q => decide (|q - abs st.price_change_pct| ≤ 5))
          (p :: ps) = some p :=
        List.find?_cons_of_pos _ (decide_eq_true hp.2)
      simp only [hfs]
      rw [if_neg (not_le.mpr hp.1)]
  · intro hall hne
    rw [hv, pctLoop_eq]
    have hfn : (extracted_percentages t).find?
        (fun p => decide (|p - abs st.price_change_pct| ≤ 5)) = none := by
      apply List.find?_eq_none.mpr
      intro x hx
      exact fun hcon => absurd (of_decide_eq_true hcon) (not_le.mpr (hall x hx))
    simp only [hfn]
    rw [if_neg (by simpa [List.isEmpty_iff] using hne)]

/-- Witness for C8 at the scenario-2 claim: 12 percent against an actual
change of 10.5 percent differs by 1.5 points, so 0.95 verified. -/
theorem C8_witness :
    verify_claim_against_data sia0 ⟨c8text, .percentage_trend_claim⟩ dPct =
      mkResult ⟨c8text, .percentage_trend_claim⟩ (0.95, .verified) :=
  (C8_percentage_rule sia0 ⟨c8text, .percentage_trend_claim⟩ dPct stPct
    stats_dPct (Or.inr rfl)).1
    (by
      have he : extracted_percentages c8text = [12] := by decide
      rw [he]
      intro p hp
      rw [List.mem_singleton] at hp
      subst hp
      simp only [stPct]
      rw [abs_of_nonneg (by norm_num : (0 : ℚ) ≤ 21 / 2)]
      rw [show (12 : ℚ) - 21 / 2 = 3 / 2 by norm_num]
      rw [abs_of_nonneg (by norm_num : (0 : ℚ) ≤ 3 / 2)]
      norm_num)
    (by decide)
